import Mathlib

/-!
Formal model of the vendor-payment ledger core: the `PurchaseOrdersService`
and `PaymentsService` of the qistonpe vendor-payment API, shallowly embedded
over exact rational arithmetic.  Monetary values are rationals; the JS
`Number(x.toFixed(2))` two-decimal rounding is modelled by `round2`
(round-half-up to a multiple of 1/100).  Dates are modelled as integer day
counts.  Each service method becomes a pure function returning `Except`
for the thrown `BadRequestException` / `NotFoundException` variants.
-/

namespace Ledger

/-- Two-decimal rounding, modelling JS `Number(x.toFixed(2))`. -/
def round2 (x : ℚ) : ℚ := (round (x * 100) : ℤ) / 100

/-- A value is an exact amount in cents (two decimal places). -/
def IsCents (x : ℚ) : Prop := ∃ z : ℤ, x = (z : ℚ) / 100

/-- Vendor status enum (`VendorStatus`). -/
inductive VendorStatus
  | active
  | inactive
deriving DecidableEq, Repr

/-- Purchase-order status enum (`PurchaseOrderStatus`). -/
inductive PoStatus
  | pending
  | approved
  | partiallyPaid
  | paid
  | overdue
  | cancelled
deriving DecidableEq, Repr

/-- Payment status enum (`PaymentStatus`). -/
inductive PaymentStatus
  | completed
  | voided
deriving DecidableEq, Repr

/-- Payment terms enum (`PaymentTerms`); carriers of the numeric values
15, 30, 45, 60, 0, -7. -/
inductive PaymentTerms
  | net15
  | net30
  | net45
  | net60
  | immediate
  | advance
deriving DecidableEq, Repr

/-- A purchase-order line item (`PurchaseOrderItem` entity); monetary and
percentage columns only, which is all the ledger arithmetic reads. -/
structure Item where
  quantity : ℚ
  unitPrice : ℚ
  taxRate : ℚ
  discountPercent : ℚ
  totalPrice : ℚ
deriving DecidableEq, Repr

/-- The `PurchaseOrder` entity: monetary fields, status, due date (as an
integer day count) and owned items. -/
structure PurchaseOrder where
  subtotal : ℚ
  taxAmount : ℚ
  discountAmount : ℚ
  totalAmount : ℚ
  paidAmount : ℚ
  outstandingAmount : ℚ
  status : PoStatus
  poDate : ℤ
  dueDate : ℤ
  items : List Item
deriving DecidableEq, Repr

/-- The `Payment` entity: the fields the void / record workflow touches. -/
structure Payment where
  paymentReference : String
  amountPaid : ℚ
  status : PaymentStatus
  voidReason : Option String
deriving DecidableEq, Repr

/-- The errors thrown (as `NotFoundException` / `BadRequestException`) by
the two services; one constructor per distinct throw site. -/
inductive LedgerError
  | vendorNotFound
  | vendorInactive
  | invalidStatusTransition
  | immutableTerminalPo
  | cannotAddItems
  | cannotModifyItems
  | cannotRemoveItems
  | lastItemRemoval
  | itemNotFound
  | cancelledPo
  | alreadyFullyPaid
  | notApproved
  | exceedsOutstanding
  | paymentWouldExceedTotal
  | alreadyVoided
  | commitFailed
deriving DecidableEq, Repr

/-- The two Vendor fields the purchase-order service reads. -/
structure Vendor where
  status : VendorStatus
  paymentTerms : PaymentTerms
deriving DecidableEq, Repr

/-- `CreatePurchaseOrderItemDto`: `taxRate` and `discountPercent` are
optional, defaulted to 0 at use sites (`|| 0` in the source). -/
structure CreateItemDto where
  quantity : ℚ
  unitPrice : ℚ
  taxRate : Option ℚ
  discountPercent : Option ℚ
deriving DecidableEq, Repr

/-- `CreatePurchaseOrderDto`: the fields the ledger arithmetic reads.
`taxAmount` / `discountAmount` are the caller overrides (`??` defaults). -/
structure CreatePoDto where
  poDate : ℤ
  items : List CreateItemDto
  taxAmount : Option ℚ
  discountAmount : Option ℚ
deriving DecidableEq, Repr

/-- `UpdatePurchaseOrderDto` (partial): a present field is `some`. -/
structure UpdatePoDto where
  status : Option PoStatus
  notes : Option String
  dueDate : Option ℤ
  taxAmount : Option ℚ
  discountAmount : Option ℚ
deriving DecidableEq, Repr

/-- `UpdatePurchaseOrderItemDto` (partial). -/
structure UpdateItemDto where
  quantity : Option ℚ
  unitPrice : Option ℚ
  taxRate : Option ℚ
  discountPercent : Option ℚ
deriving DecidableEq, Repr

/-- JS `s.split('-')`, written over the character list so that it is
kernel-computable. -/
def splitCharAux : List Char → List Char → List (List Char)
  | [], acc => [acc.reverse]
  | c :: cs, acc =>
    if c = '-' then acc.reverse :: splitCharAux cs [] else splitCharAux cs (c :: acc)

def splitOnDash (s : String) : List String := (splitCharAux s.data []).map String.mk

/-- JS `parseInt(s, 10)` for a non-negative result: parses the longest
leading digit run; `none` models `NaN`. -/
def parseIntNat (s : String) : Option ℕ :=
  let ds := s.data.takeWhile fun c => decide ('0' ≤ c) && decide (c ≤ '9')
  if ds = [] then none
  else some (ds.foldl (fun n c => 10 * n + (c.toNat - '0'.toNat)) 0)

/-- Lexicographic byte comparison: the string ordering behind the
`ORDER BY poNumber DESC` / `ORDER BY paymentReference DESC` queries. -/
def charListLt : List Char → List Char → Bool
  | [], [] => false
  | [], _ :: _ => true
  | _ :: _, [] => false
  | a :: as, b :: bs => if a = b then charListLt as bs else decide (a < b)

namespace PurchaseOrdersService

/-- JS `s.padStart(3, '0')`. -/
def padStart3 (s : String) : String :=
  if s.length < 3 then String.mk (List.replicate (3 - s.length) '0') ++ s else s

/-- JS `parseInt(ref.split('-')[2], 10)` on a generated reference (a parse
failure, `NaN`, is defaulted to 0; generated references always parse). -/
def parseRefSeq (ref : String) : ℕ :=
  (parseIntNat ((splitOnDash ref).getD 2 "")).getD 0

/-- `generatePoNumber`: `dateStr` is today's `YYYYMMDD`; `latest` is the
lexicographically greatest existing `poNumber` for today (the
`ORDER BY poNumber DESC ... getOne()` result), `none` when today has no POs. -/
def generatePoNumber (dateStr : String) (latest : Option String) : String :=
  let pref := "PO-" ++ dateStr
  let sequence : ℕ :=
    match latest with
    | none => 1
    | some latestPo => parseRefSeq latestPo + 1
  pref ++ "-" ++ padStart3 (toString sequence)

/-- `calculateDueDate`: the `daysMap` record literally from the source. -/
def daysMap : PaymentTerms → ℤ
  | .net15 => 15
  | .net30 => 30
  | .net45 => 45
  | .net60 => 60
  | .immediate => 0
  | .advance => -7

def calculateDueDate (poDate : ℤ) (paymentTerms : PaymentTerms) : ℤ :=
  poDate + daysMap paymentTerms

/-- `calculateItemTotal` on a create-item DTO. -/
def calculateItemTotal (item : CreateItemDto) : ℚ :=
  let subtotal := item.quantity * item.unitPrice
  let discount := subtotal * ((item.discountPercent.getD 0) / 100)
  let afterDiscount := subtotal - discount
  let tax := afterDiscount * ((item.taxRate.getD 0) / 100)
  round2 (afterDiscount + tax)

/-- The item entity built from a create DTO (`poItemRepository.create`
with `totalPrice` from the item formula). -/
def mkItem (dto : CreateItemDto) : Item :=
  { quantity := dto.quantity
    unitPrice := dto.unitPrice
    taxRate := dto.taxRate.getD 0
    discountPercent := dto.discountPercent.getD 0
    totalPrice := calculateItemTotal dto }

/-- Per-DTO raw (unrounded) amounts accumulated by `create`'s item loop. -/
def dtoSubtotal (i : CreateItemDto) : ℚ := i.quantity * i.unitPrice

def dtoDiscount (i : CreateItemDto) : ℚ :=
  dtoSubtotal i * ((i.discountPercent.getD 0) / 100)

def dtoTax (i : CreateItemDto) : ℚ :=
  (dtoSubtotal i - dtoDiscount i) * ((i.taxRate.getD 0) / 100)

/-- `PurchaseOrdersService.create` after the vendor lookup: `vendor` is the
repository result (`none` = not found). PO-number allocation is modelled
separately by `generatePoNumber`. -/
def create (vendor : Option Vendor) (dto : CreatePoDto) :
    Except LedgerError PurchaseOrder :=
  match vendor with
  | none => .error .vendorNotFound
  | some v =>
    if v.status ≠ .active then .error .vendorInactive
    else
      let dueDate := calculateDueDate dto.poDate v.paymentTerms
      let subtotal := (dto.items.map dtoSubtotal).sum
      let totalDiscount := (dto.items.map dtoDiscount).sum
      let totalTax := (dto.items.map dtoTax).sum
      let finalTax := dto.taxAmount.getD (round2 totalTax)
      let finalDiscount := dto.discountAmount.getD (round2 totalDiscount)
      let totalAmount := round2 (subtotal - finalDiscount + finalTax)
      .ok {
        subtotal := round2 subtotal
        taxAmount := finalTax
        discountAmount := finalDiscount
        totalAmount := totalAmount
        paidAmount := 0
        outstandingAmount := totalAmount
        status := .pending
        poDate := dto.poDate
        dueDate := dueDate
        items := dto.items.map mkItem }

/-- The transition table of `validateStatusTransition`. -/
def validTransitions : PoStatus → List PoStatus
  | .pending => [.approved, .cancelled]
  | .approved => [.partiallyPaid, .paid, .cancelled]
  | .partiallyPaid => [.paid, .cancelled]
  | .paid => []
  | .cancelled => []
  | .overdue => [.partiallyPaid, .paid, .cancelled]

/-- `updateDto.status` absent, or the transition is in the table. -/
def statusTransitionOk (cur : PoStatus) : Option PoStatus → Bool
  | none => true
  | some s => (validTransitions cur).contains s

/-- JS `Object.keys(updateDto).some(key => key !== 'notes')`. -/
def hasNonNotesField (dto : UpdatePoDto) : Bool :=
  dto.status.isSome || dto.dueDate.isSome || dto.taxAmount.isSome ||
    dto.discountAmount.isSome

/-- JS `Object.assign(purchaseOrder, updateDto)`. -/
def applyUpdate (po : PurchaseOrder) (dto : UpdatePoDto) : PurchaseOrder :=
  { po with
    status := dto.status.getD po.status
    dueDate := dto.dueDate.getD po.dueDate
    taxAmount := dto.taxAmount.getD po.taxAmount
    discountAmount := dto.discountAmount.getD po.discountAmount }

/-- `PurchaseOrdersService.update`. -/
def update (po : PurchaseOrder) (dto : UpdatePoDto) :
    Except LedgerError PurchaseOrder :=
  if statusTransitionOk po.status dto.status = false then
    .error .invalidStatusTransition
  else if (po.status = .paid ∨ po.status = .cancelled) ∧ hasNonNotesField dto then
    .error .immutableTerminalPo
  else .ok (applyUpdate po dto)

/-- Per-entity raw amounts accumulated by `recalculateTotals`' item loop. -/
def itemSubtotal (i : Item) : ℚ := i.quantity * i.unitPrice

def itemDiscount (i : Item) : ℚ := itemSubtotal i * (i.discountPercent / 100)

def itemTax (i : Item) : ℚ := (itemSubtotal i - itemDiscount i) * (i.taxRate / 100)

/-- `recalculateTotals`: full recomputation of the monetary columns from
the current items; `outstanding = total - paidAmount`, no further check. -/
def recalculateTotals (po : PurchaseOrder) : PurchaseOrder :=
  let subtotal := (po.items.map itemSubtotal).sum
  let totalDiscount := (po.items.map itemDiscount).sum
  let totalTax := (po.items.map itemTax).sum
  let totalAmount := subtotal - totalDiscount + totalTax
  let outstandingAmount := totalAmount - po.paidAmount
  { po with
    subtotal := round2 subtotal
    taxAmount := round2 totalTax
    discountAmount := round2 totalDiscount
    totalAmount := round2 totalAmount
    outstandingAmount := round2 outstandingAmount }

/-- `addItem`. -/
def addItem (po : PurchaseOrder) (itemDto : CreateItemDto) :
    Except LedgerError PurchaseOrder :=
  if po.status ≠ .pending ∧ po.status ≠ .approved then .error .cannotAddItems
  else .ok (recalculateTotals { po with items := po.items ++ [mkItem itemDto] })

/-- JS `Object.assign(item, updateDto)` followed by the `totalPrice`
recomputation from the merged fields. -/
def mergeItem (item : Item) (dto : UpdateItemDto) : Item :=
  let quantity := dto.quantity.getD item.quantity
  let unitPrice := dto.unitPrice.getD item.unitPrice
  let taxRate := dto.taxRate.getD item.taxRate
  let discountPercent := dto.discountPercent.getD item.discountPercent
  { quantity := quantity
    unitPrice := unitPrice
    taxRate := taxRate
    discountPercent := discountPercent
    totalPrice := calculateItemTotal
      { quantity := quantity
        unitPrice := unitPrice
        taxRate := some taxRate
        discountPercent := some discountPercent } }

/-- `updateItem`; the item is addressed by its position in `po.items`
(the source addresses it by UUID within the same collection). -/
def updateItem (po : PurchaseOrder) (idx : ℕ) (dto : UpdateItemDto) :
    Except LedgerError PurchaseOrder :=
  if po.status ≠ .pending ∧ po.status ≠ .approved then .error .cannotModifyItems
  else if h : idx < po.items.length then
    let item := po.items.get ⟨idx, h⟩
    .ok (recalculateTotals { po with items := po.items.set idx (mergeItem item dto) })
  else .error .itemNotFound

/-- `removeItem`. -/
def removeItem (po : PurchaseOrder) (idx : ℕ) :
    Except LedgerError PurchaseOrder :=
  if po.status ≠ .pending ∧ po.status ≠ .approved then .error .cannotRemoveItems
  else if po.items.length ≤ 1 then .error .lastItemRemoval
  else if idx < po.items.length then
    .ok (recalculateTotals { po with items := po.items.eraseIdx idx })
  else .error .itemNotFound

/-- The WHERE clause of `markOverduePurchaseOrders`' bulk UPDATE. -/
def overdueEligible (today : ℤ) (po : PurchaseOrder) : Bool :=
  decide (po.dueDate < today) &&
    (po.status == .pending || po.status == .approved || po.status == .partiallyPaid) &&
    decide ((0 : ℚ) < po.outstandingAmount)

/-- `markOverduePurchaseOrders` over the table of (non-deleted) POs:
the bulk UPDATE and the affected-row count it returns. -/
def markOverduePurchaseOrders (today : ℤ) (pos : List PurchaseOrder) :
    List PurchaseOrder × ℕ :=
  (pos.map fun po =>
      if overdueEligible today po then { po with status := .overdue } else po,
   (pos.filter (overdueEligible today)).length)

/-- `updatePaymentAmounts` (called by `PaymentsService.create`). -/
def updatePaymentAmounts (po : PurchaseOrder) (additionalPayment : ℚ) :
    Except LedgerError PurchaseOrder :=
  let newPaidAmount := round2 (po.paidAmount + additionalPayment)
  let newOutstanding := round2 (po.totalAmount - newPaidAmount)
  if newPaidAmount > po.totalAmount then .error .paymentWouldExceedTotal
  else
    let newStatus :=
      if newOutstanding ≤ 0 then PoStatus.paid
      else if newPaidAmount > 0 then PoStatus.partiallyPaid
      else po.status
    .ok { po with
      paidAmount := newPaidAmount
      outstandingAmount := max 0 newOutstanding
      status := newStatus }

/-- `reversePaymentAmount` (called by `PaymentsService.void`); `now` is the
day count of `new Date()`. -/
def reversePaymentAmount (po : PurchaseOrder) (amount : ℚ) (now : ℤ) :
    PurchaseOrder :=
  let newPaidAmount := round2 (po.paidAmount - amount)
  let newOutstanding := round2 (po.totalAmount - newPaidAmount)
  let newStatus :=
    if newPaidAmount ≤ 0 then
      if now > po.dueDate then PoStatus.overdue else PoStatus.approved
    else PoStatus.partiallyPaid
  { po with
    paidAmount := max 0 newPaidAmount
    outstandingAmount := newOutstanding
    status := newStatus }

end PurchaseOrdersService

namespace PaymentsService

/-- `generatePaymentReference`: identical to `generatePoNumber` with the
`PAY` marker. -/
def generatePaymentReference (dateStr : String) (latest : Option String) : String :=
  let pref := "PAY-" ++ dateStr
  let sequence : ℕ :=
    match latest with
    | none => 1
    | some latestPayment => PurchaseOrdersService.parseRefSeq latestPayment + 1
  pref ++ "-" ++ PurchaseOrdersService.padStart3 (toString sequence)

/-- `PaymentsService.create` after the PO lookup, as a pure outcome:
validations, then the Payment insert and the PO update via
`updatePaymentAmounts`. Reference allocation is modelled separately. -/
def create (po : PurchaseOrder) (paymentReference : String) (amountPaid : ℚ) :
    Except LedgerError (Payment × PurchaseOrder) :=
  if po.status = .cancelled then .error .cancelledPo
  else if po.status = .paid then .error .alreadyFullyPaid
  else if po.status = .pending then .error .notApproved
  else if amountPaid > po.outstandingAmount then .error .exceedsOutstanding
  else
    let payment : Payment :=
      { paymentReference := paymentReference
        amountPaid := amountPaid
        status := .completed
        voidReason := none }
    match PurchaseOrdersService.updatePaymentAmounts po amountPaid with
    | .error e => .error e
    | .ok po2 => .ok (payment, po2)

/-- `PaymentsService.void`: flag the payment VOIDED, then reverse its
amount on the owning PO. -/
def void (pay : Payment) (po : PurchaseOrder) (voidReason : String) (now : ℤ) :
    Except LedgerError (Payment × PurchaseOrder) :=
  if pay.status = .voided then .error .alreadyVoided
  else
    let pay2 : Payment :=
      { pay with status := PaymentStatus.voided, voidReason := some voidReason }
    .ok (pay2, PurchaseOrdersService.reversePaymentAmount po pay.amountPaid now)

end PaymentsService

/-- The committed database state the two aggregates live in. -/
structure LedgerState where
  po : PurchaseOrder
  payments : List Payment
deriving DecidableEq, Repr

/-- Execution model of `PaymentsService.create` that distinguishes the two
write paths in the source: the Payment insert goes through the
transaction's `queryRunner.manager` and stays in the transaction buffer
until commit, while the PO update inside
`PurchaseOrdersService.updatePaymentAmounts` goes through
`this.poRepository.save` on the default connection and is committed
immediately, outside the transaction. `commitOk = false` models
`commitTransaction` failing; the catch block's `rollbackTransaction`
then discards only the buffered Payment insert. -/
def recordPaymentExec (s : LedgerState) (paymentReference : String)
    (amountPaid : ℚ) (commitOk : Bool) :
    LedgerState × Except LedgerError Payment :=
  if s.po.status = .cancelled then (s, .error .cancelledPo)
  else if s.po.status = .paid then (s, .error .alreadyFullyPaid)
  else if s.po.status = .pending then (s, .error .notApproved)
  else if amountPaid > s.po.outstandingAmount then (s, .error .exceedsOutstanding)
  else
    let payment : Payment :=
      { paymentReference := paymentReference
        amountPaid := amountPaid
        status := .completed
        voidReason := none }
    match PurchaseOrdersService.updatePaymentAmounts s.po amountPaid with
    | .error e => (s, .error e)
    | .ok po2 =>
      if commitOk then
        ({ po := po2, payments := s.payments ++ [payment] }, .ok payment)
      else
        ({ po := po2, payments := s.payments }, .error .commitFailed)

/-! ### Arithmetic facts about two-decimal rounding -/

theorem round2_sub_le (x : ℚ) : round2 x - x ≤ 1 / 200 := by
  have h : (round (x * 100) : ℚ) ≤ x * 100 + 1 / 2 := by
    rw [round_eq]
    exact_mod_cast Int.floor_le (x * 100 + 1 / 2)
  unfold round2
  linarith

theorem round2_sub_gt (x : ℚ) : -(1 / 200) < round2 x - x := by
  have h : x * 100 - 1 / 2 < (round (x * 100) : ℚ) := by
    rw [round_eq]
    have := Int.sub_one_lt_floor (x * 100 + 1 / 2)
    push_cast at this ⊢
    linarith
  unfold round2
  linarith

theorem abs_round2_sub (x : ℚ) : |round2 x - x| ≤ 1 / 200 := by
  rw [abs_le]
  constructor
  · linarith [round2_sub_gt x]
  · exact round2_sub_le x

theorem round2_isCents (x : ℚ) : IsCents (round2 x) := ⟨round (x * 100), rfl⟩

theorem round2_of_isCents {x : ℚ} (h : IsCents x) : round2 x = x := by
  obtain ⟨z, rfl⟩ := h
  unfold round2
  have h100 : ((z : ℚ) / 100) * 100 = (z : ℚ) := by field_simp
  rw [h100, round_intCast]

theorem round2_nonneg {x : ℚ} (h : 0 ≤ x) : 0 ≤ round2 x := by
  unfold round2
  have hz : (0 : ℤ) ≤ round (x * 100) := by
    rw [round_eq]
    apply Int.floor_nonneg.mpr
    linarith
  positivity

theorem isCents_add {x y : ℚ} (hx : IsCents x) (hy : IsCents y) : IsCents (x + y) := by
  obtain ⟨a, rfl⟩ := hx
  obtain ⟨b, rfl⟩ := hy
  exact ⟨a + b, by push_cast; ring⟩

theorem isCents_sub {x y : ℚ} (hx : IsCents x) (hy : IsCents y) : IsCents (x - y) := by
  obtain ⟨a, rfl⟩ := hx
  obtain ⟨b, rfl⟩ := hy
  exact ⟨a - b, by push_cast; ring⟩

/-- A compensated-rounding bound: rounding a three-term combination versus
combining the three roundings differs by at most one cent.  This is the
reason the `totalAmount == subtotal - discountAmount + taxAmount` invariant
holds within 0.01 after `recalculateTotals` even though the source rounds
the four columns independently. -/
theorem round2_threeTerm_bound (S D T : ℚ) :
    |round2 (S - D + T) - (round2 S - round2 D + round2 T)| ≤ 1 / 100 := by
  have hzq : round2 (S - D + T) - (round2 S - round2 D + round2 T) =
      ((round ((S - D + T) * 100) - round (S * 100) + round (D * 100)
        - round (T * 100) : ℤ) : ℚ) / 100 := by
    unfold round2
    push_cast
    ring
  set z : ℤ := round ((S - D + T) * 100) - round (S * 100) + round (D * 100)
      - round (T * 100) with hz
  have h1 := round2_sub_le (S - D + T)
  have h2 := round2_sub_gt (S - D + T)
  have h3 := round2_sub_le S
  have h4 := round2_sub_gt S
  have h5 := round2_sub_le D
  have h6 := round2_sub_gt D
  have h7 := round2_sub_le T
  have h8 := round2_sub_gt T
  have hub : (z : ℚ) / 100 < 2 / 100 := by rw [← hzq]; linarith
  have hlb : -(2 / 100) < (z : ℚ) / 100 := by rw [← hzq]; linarith
  have hzu : (z : ℚ) < 2 := by linarith
  have hzl : (-2 : ℚ) < (z : ℚ) := by linarith
  have hzu2 : z < 2 := by exact_mod_cast hzu
  have hzl2 : -2 < z := by exact_mod_cast hzl
  have hzb : -1 ≤ z ∧ z ≤ 1 := by omega
  have habs : |(z : ℚ)| ≤ 1 := by
    rw [abs_le]
    constructor
    · exact_mod_cast hzb.1
    · exact_mod_cast hzb.2
  rw [hzq, abs_div, abs_of_nonneg (by norm_num : (0 : ℚ) ≤ 100)]
  linarith

/-! ### The monetary invariant and its preservation -/

/-- The spec's two monetary invariants with the 0.01 rounding epsilon. -/
def MoneyInvariant (po : PurchaseOrder) : Prop :=
  |po.paidAmount + po.outstandingAmount - po.totalAmount| ≤ 1 / 100 ∧
  |po.totalAmount - (po.subtotal - po.discountAmount + po.taxAmount)| ≤ 1 / 100

instance (po : PurchaseOrder) : Decidable (MoneyInvariant po) := by
  unfold MoneyInvariant
  infer_instance

namespace PurchaseOrdersService

theorem moneyInvariant_create {v : Vendor} {dto : CreatePoDto} {po : PurchaseOrder}
    (h : create (some v) dto = .ok po) : MoneyInvariant po := by
  simp only [create] at h
  split at h
  · exact absurd h (by simp)
  · simp only [Except.ok.injEq] at h
    subst h
    constructor
    · simp
    · simp only
      have h1 := round2_sub_le ((dto.items.map dtoSubtotal).sum -
        dto.discountAmount.getD (round2 (dto.items.map dtoDiscount).sum) +
        dto.taxAmount.getD (round2 (dto.items.map dtoTax).sum))
      have h2 := round2_sub_gt ((dto.items.map dtoSubtotal).sum -
        dto.discountAmount.getD (round2 (dto.items.map dtoDiscount).sum) +
        dto.taxAmount.getD (round2 (dto.items.map dtoTax).sum))
      have h3 := round2_sub_le (dto.items.map dtoSubtotal).sum
      have h4 := round2_sub_gt (dto.items.map dtoSubtotal).sum
      rw [abs_le]
      constructor <;> linarith

theorem moneyInvariant_recalculateTotals (po : PurchaseOrder) :
    MoneyInvariant (recalculateTotals po) := by
  unfold recalculateTotals MoneyInvariant
  simp only
  set S := (po.items.map itemSubtotal).sum with hS
  set D := (po.items.map itemDiscount).sum with hD
  set T := (po.items.map itemTax).sum with hT
  constructor
  · have h1 := round2_sub_le (S - D + T - po.paidAmount)
    have h2 := round2_sub_gt (S - D + T - po.paidAmount)
    have h3 := round2_sub_le (S - D + T)
    have h4 := round2_sub_gt (S - D + T)
    rw [abs_le]
    constructor <;> linarith
  · exact round2_threeTerm_bound S D T

theorem moneyInvariant_updatePaymentAmounts {po po2 : PurchaseOrder} {amt : ℚ}
    (hinv : |po.totalAmount - (po.subtotal - po.discountAmount + po.taxAmount)| ≤ 1 / 100)
    (h : updatePaymentAmounts po amt = .ok po2) : MoneyInvariant po2 := by
  simp only [updatePaymentAmounts] at h
  split at h
  · exact absurd h (by simp)
  · rename_i hguard
    simp only [Except.ok.injEq] at h
    subst h
    push_neg at hguard
    constructor
    · simp only
      have hout : 0 ≤ round2 (po.totalAmount - round2 (po.paidAmount + amt)) :=
        round2_nonneg (by linarith)
      rw [max_eq_right hout]
      have h1 := round2_sub_le (po.totalAmount - round2 (po.paidAmount + amt))
      have h2 := round2_sub_gt (po.totalAmount - round2 (po.paidAmount + amt))
      rw [abs_le]
      constructor <;> linarith
    · simpa using hinv

theorem moneyInvariant_reversePaymentAmount {po : PurchaseOrder} {amt : ℚ} (now : ℤ)
    (hamt : amt ≤ po.paidAmount)
    (hinv : |po.totalAmount - (po.subtotal - po.discountAmount + po.taxAmount)| ≤ 1 / 100) :
    MoneyInvariant (reversePaymentAmount po amt now) := by
  unfold reversePaymentAmount MoneyInvariant
  constructor
  · simp only
    have hr : 0 ≤ round2 (po.paidAmount - amt) := round2_nonneg (by linarith)
    rw [max_eq_right hr]
    have h1 := round2_sub_le (po.totalAmount - round2 (po.paidAmount - amt))
    have h2 := round2_sub_gt (po.totalAmount - round2 (po.paidAmount - amt))
    rw [abs_le]
    constructor <;> linarith
  · simpa using hinv

theorem moneyInvariant_update {po po2 : PurchaseOrder} {dto : UpdatePoDto}
    (hinv : MoneyInvariant po)
    (htax : dto.taxAmount = none) (hdisc : dto.discountAmount = none)
    (h : update po dto = .ok po2) : MoneyInvariant po2 := by
  unfold update at h
  split at h
  · exact absurd h (by simp)
  · split at h
    · exact absurd h (by simp)
    · simp only [Except.ok.injEq] at h
      subst h
      obtain ⟨ha, hb⟩ := hinv
      constructor
      · simp only [applyUpdate, htax, hdisc, Option.getD_none]
        exact ha
      · simp only [applyUpdate, htax, hdisc, Option.getD_none]
        exact hb

theorem moneyInvariant_markOverdue {today : ℤ} {pos : List PurchaseOrder}
    (hinv : ∀ po ∈ pos, MoneyInvariant po) :
    ∀ q ∈ (markOverduePurchaseOrders today pos).1, MoneyInvariant q := by
  intro q hq
  unfold markOverduePurchaseOrders at hq
  simp only [List.mem_map] at hq
  obtain ⟨po, hpo, rfl⟩ := hq
  have hm := hinv po hpo
  by_cases he : overdueEligible today po
  · simp only [he, if_true]
    exact ⟨by simpa using hm.1, by simpa using hm.2⟩
  · simp only [he, if_false]
    exact hm

theorem moneyInvariant_addItem {po : PurchaseOrder} {dto : CreateItemDto}
    {po2 : PurchaseOrder} (h : addItem po dto = .ok po2) : MoneyInvariant po2 := by
  simp only [addItem] at h
  split at h
  · exact absurd h (by simp)
  · simp only [Except.ok.injEq] at h
    subst h
    exact moneyInvariant_recalculateTotals _

theorem moneyInvariant_updateItem {po : PurchaseOrder} {idx : ℕ} {dto : UpdateItemDto}
    {po2 : PurchaseOrder} (h : updateItem po idx dto = .ok po2) : MoneyInvariant po2 := by
  simp only [updateItem] at h
  split at h
  · exact absurd h (by simp)
  · split at h
    · simp only [Except.ok.injEq] at h
      subst h
      exact moneyInvariant_recalculateTotals _
    · exact absurd h (by simp)

theorem moneyInvariant_removeItem {po : PurchaseOrder} {idx : ℕ}
    {po2 : PurchaseOrder} (h : removeItem po idx = .ok po2) : MoneyInvariant po2 := by
  simp only [removeItem] at h
  split at h
  · exact absurd h (by simp)
  · split at h
    · exact absurd h (by simp)
    · split at h
      · simp only [Except.ok.injEq] at h
        subst h
        exact moneyInvariant_recalculateTotals _
      · exact absurd h (by simp)

end PurchaseOrdersService

theorem moneyInvariant_recordPayment {po : PurchaseOrder} {ref : String} {amt : ℚ}
    {pay : Payment} {po2 : PurchaseOrder} (hinv : MoneyInvariant po)
    (h : PaymentsService.create po ref amt = .ok (pay, po2)) : MoneyInvariant po2 := by
  simp only [PaymentsService.create] at h
  split at h
  · exact absurd h (by simp)
  · split at h
    · exact absurd h (by simp)
    · split at h
      · exact absurd h (by simp)
      · split at h
        · exact absurd h (by simp)
        · split at h
          · exact absurd h (by simp)
          · rename_i po3 heq
            simp only [Except.ok.injEq, Prod.mk.injEq] at h
            obtain ⟨-, h2⟩ := h
            subst h2
            exact PurchaseOrdersService.moneyInvariant_updatePaymentAmounts hinv.2 heq

theorem moneyInvariant_voidPayment {pay : Payment} {po : PurchaseOrder}
    {reason : String} {now : ℤ} {pay2 : Payment} {po2 : PurchaseOrder}
    (hamt : pay.amountPaid ≤ po.paidAmount) (hinv : MoneyInvariant po)
    (h : PaymentsService.void pay po reason now = .ok (pay2, po2)) : MoneyInvariant po2 := by
  simp only [PaymentsService.void] at h
  split at h
  · exact absurd h (by simp)
  · simp only [Except.ok.injEq, Prod.mk.injEq] at h
    obtain ⟨-, h2⟩ := h
    subst h2
    exact PurchaseOrdersService.moneyInvariant_reversePaymentAmount now hamt hinv.2

/-! ### Concrete example states used by witnesses and counterexamples -/

/-- An 18%-tax PO for 100 units of subtotal: total 118, approved, unpaid. -/
def exItem : Item :=
  { quantity := 1, unitPrice := 100, taxRate := 18, discountPercent := 0,
    totalPrice := 118 }

def exPo : PurchaseOrder :=
  { subtotal := 100, taxAmount := 18, discountAmount := 0, totalAmount := 118,
    paidAmount := 0, outstandingAmount := 118, status := .approved,
    poDate := 0, dueDate := 30, items := [exItem] }

/-- `exPo` after a successful 50-unit payment. -/
def exPoPaid50 : PurchaseOrder :=
  { exPo with paidAmount := 50, outstandingAmount := 68, status := .partiallyPaid }

def exPay50 : Payment :=
  { paymentReference := "PAY-20260114-001", amountPaid := 50,
    status := .completed, voidReason := none }

/-! ### C1 -/

/-- C1: after any committed mutation (create, item add/update/remove,
status update via `update`, payment recording, payment void, overdue
sweep) the purchase order satisfies
`|paidAmount + outstandingAmount - totalAmount| ≤ 0.01` and
`|totalAmount - (subtotal - discountAmount + taxAmount)| ≤ 0.01`.
Mutations that only adjust payment state or status additionally assume the
invariant held before (it is an invariant, established at creation), and a
void assumes the voided amount is at most the recorded paid amount (true of
every committed payment). -/
theorem C1_money_invariants :
    (∀ (v : Vendor) (dto : CreatePoDto) (po : PurchaseOrder),
        PurchaseOrdersService.create (some v) dto = .ok po → MoneyInvariant po) ∧
    (∀ (po : PurchaseOrder) (dto : CreateItemDto) (po2 : PurchaseOrder),
        PurchaseOrdersService.addItem po dto = .ok po2 → MoneyInvariant po2) ∧
    (∀ (po : PurchaseOrder) (idx : ℕ) (dto : UpdateItemDto) (po2 : PurchaseOrder),
        PurchaseOrdersService.updateItem po idx dto = .ok po2 → MoneyInvariant po2) ∧
    (∀ (po : PurchaseOrder) (idx : ℕ) (po2 : PurchaseOrder),
        PurchaseOrdersService.removeItem po idx = .ok po2 → MoneyInvariant po2) ∧
    (∀ (po : PurchaseOrder) (dto : UpdatePoDto) (po2 : PurchaseOrder),
        MoneyInvariant po → dto.taxAmount = none → dto.discountAmount = none →
        PurchaseOrdersService.update po dto = .ok po2 → MoneyInvariant po2) ∧
    (∀ (po : PurchaseOrder) (ref : String) (amt : ℚ) (pay : Payment) (po2 : PurchaseOrder),
        MoneyInvariant po → PaymentsService.create po ref amt = .ok (pay, po2) →
        MoneyInvariant po2) ∧
    (∀ (pay : Payment) (po : PurchaseOrder) (reason : String) (now : ℤ)
        (pay2 : Payment) (po2 : PurchaseOrder),
        pay.amountPaid ≤ po.paidAmount → MoneyInvariant po →
        PaymentsService.void pay po reason now = .ok (pay2, po2) → MoneyInvariant po2) ∧
    (∀ (today : ℤ) (pos : List PurchaseOrder),
        (∀ po ∈ pos, MoneyInvariant po) →
        ∀ q ∈ (PurchaseOrdersService.markOverduePurchaseOrders today pos).1,
          MoneyInvariant q) := by
  refine ⟨?_, ?_, ?_, ?_, ?_, ?_, ?_, ?_⟩
  · exact fun v dto po h => PurchaseOrdersService.moneyInvariant_create h
  · exact fun po dto po2 h => PurchaseOrdersService.moneyInvariant_addItem h
  · exact fun po idx dto po2 h => PurchaseOrdersService.moneyInvariant_updateItem h
  · exact fun po idx po2 h => PurchaseOrdersService.moneyInvariant_removeItem h
  · exact fun po dto po2 hinv ht hd h =>
      PurchaseOrdersService.moneyInvariant_update hinv ht hd h
  · exact fun po ref amt pay po2 hinv h => moneyInvariant_recordPayment hinv h
  · exact fun pay po reason now pay2 po2 hamt hinv h =>
      moneyInvariant_voidPayment hamt hinv h
  · exact fun today pos hinv => PurchaseOrdersService.moneyInvariant_markOverdue hinv

/-- C1 witness: recording a 50-unit payment on the concrete approved
118-unit PO keeps the invariant. -/
theorem C1_money_invariants_witness : MoneyInvariant exPoPaid50 :=
  C1_money_invariants.2.2.2.2.2.1 exPo "PAY-20260114-001" 50 exPay50 exPoPaid50
    (by unfold MoneyInvariant exPo; norm_num)
    (by
      norm_num [PaymentsService.create, PurchaseOrdersService.updatePaymentAmounts,
        exPo, exPay50, exPoPaid50, round2]
      rfl)

/-! ### Elimination lemmas for successful payment operations -/

theorem PaymentsService.create_ok_elim {po : PurchaseOrder} {ref : String} {amt : ℚ}
    {pay : Payment} {po1 : PurchaseOrder}
    (h : PaymentsService.create po ref amt = .ok (pay, po1)) :
    pay = { paymentReference := ref, amountPaid := amt, status := .completed,
            voidReason := none } ∧
    PurchaseOrdersService.updatePaymentAmounts po amt = .ok po1 := by
  simp only [PaymentsService.create] at h
  split at h
  · exact absurd h (by simp)
  · split at h
    · exact absurd h (by simp)
    · split at h
      · exact absurd h (by simp)
      · split at h
        · exact absurd h (by simp)
        · split at h
          · exact absurd h (by simp)
          · rename_i po3 heq
            simp only [Except.ok.injEq, Prod.mk.injEq] at h
            obtain ⟨h1, h2⟩ := h
            subst h2
            exact ⟨h1.symm, heq⟩

theorem PurchaseOrdersService.updatePaymentAmounts_ok_elim
    {po po1 : PurchaseOrder} {amt : ℚ}
    (h : PurchaseOrdersService.updatePaymentAmounts po amt = .ok po1) :
    round2 (po.paidAmount + amt) ≤ po.totalAmount ∧
    po1.paidAmount = round2 (po.paidAmount + amt) ∧
    po1.outstandingAmount =
      max 0 (round2 (po.totalAmount - round2 (po.paidAmount + amt))) ∧
    po1.totalAmount = po.totalAmount ∧
    po1.dueDate = po.dueDate := by
  simp only [PurchaseOrdersService.updatePaymentAmounts] at h
  split at h
  · exact absurd h (by simp)
  · rename_i hg
    push_neg at hg
    simp only [Except.ok.injEq] at h
    subst h
    exact ⟨hg, rfl, rfl, rfl, rfl⟩

theorem PaymentsService.void_ok_elim {pay : Payment} {po : PurchaseOrder}
    {reason : String} {now : ℤ} {pay2 : Payment} {po2 : PurchaseOrder}
    (h : PaymentsService.void pay po reason now = .ok (pay2, po2)) :
    pay.status ≠ .voided ∧
    pay2 = { pay with status := .voided, voidReason := some reason } ∧
    po2 = PurchaseOrdersService.reversePaymentAmount po pay.amountPaid now := by
  simp only [PaymentsService.void] at h
  split at h
  · exact absurd h (by simp)
  · rename_i hnv
    simp only [Except.ok.injEq, Prod.mk.injEq] at h
    exact ⟨hnv, h.1.symm, h.2.symm⟩

/-! ### C2 -/

/-- C2 (code bug): `recordPayment` is not all-or-nothing.  The Payment
insert goes through the transaction (`queryRunner.manager.save`), but the
PO update in `updatePaymentAmounts` goes through `poRepository.save` on
the default connection, outside the transaction.  When the commit fails,
rollback discards only the Payment insert: the committed state has
`paidAmount = 50` on the PO and no Payment row — exactly the state the
claim says is never observable. -/
theorem C2_record_payment_not_atomic :
    recordPaymentExec { po := exPo, payments := [] } "PAY-20260114-001" 50 false
      = ({ po := exPoPaid50, payments := [] }, .error .commitFailed) ∧
    exPoPaid50.paidAmount ≠ exPo.paidAmount ∧
    exPoPaid50.status ≠ exPo.status := by
  refine ⟨?_, by norm_num [exPo, exPoPaid50], by simp [exPo, exPoPaid50]⟩
  norm_num [recordPaymentExec, PurchaseOrdersService.updatePaymentAmounts,
    exPo, exPoPaid50, round2]
  rfl

/-! ### C3 -/

def exPoPending : PurchaseOrder := { exPo with status := .pending }

/-- C3 counterexample: the claim quantifies over every purchase order, but
on a PENDING PO an over-payment is rejected with the must-be-approved
error, not `PaymentExceedsOutstanding`. -/
theorem C3_counterexample :
    PaymentsService.create exPoPending "PAY-20260114-001" 200
      = .error .notApproved ∧
    LedgerError.notApproved ≠ LedgerError.exceedsOutstanding := by
  constructor
  · rfl
  · simp

/-- C3 (amended): for every PO in a payment-eligible status (APPROVED,
PARTIALLY_PAID or OVERDUE) and every amount strictly greater than the
outstanding amount, `recordPayment` fails with the
exceeds-outstanding error and leaves the purchase order and the payments
table unchanged. -/
theorem C3_overpayment_rejected (s : LedgerState) (ref : String) (amt : ℚ)
    (commitOk : Bool)
    (hs : s.po.status = .approved ∨ s.po.status = .partiallyPaid ∨
      s.po.status = .overdue)
    (hamt : amt > s.po.outstandingAmount) :
    recordPaymentExec s ref amt commitOk = (s, .error .exceedsOutstanding) ∧
    PaymentsService.create s.po ref amt = .error .exceedsOutstanding := by
  have h1 : ¬ s.po.status = .cancelled := by rcases hs with h | h | h <;> simp [h]
  have h2 : ¬ s.po.status = .paid := by rcases hs with h | h | h <;> simp [h]
  have h3 : ¬ s.po.status = .pending := by rcases hs with h | h | h <;> simp [h]
  constructor
  · simp only [recordPaymentExec, if_neg h1, if_neg h2, if_neg h3, if_pos hamt]
  · simp only [PaymentsService.create, if_neg h1, if_neg h2, if_neg h3, if_pos hamt]

theorem C3_overpayment_rejected_witness :
    recordPaymentExec { po := exPo, payments := [] } "PAY-20260114-002" 200 true
      = ({ po := exPo, payments := [] }, .error .exceedsOutstanding) ∧
    PaymentsService.create exPo "PAY-20260114-002" 200
      = .error .exceedsOutstanding :=
  C3_overpayment_rejected { po := exPo, payments := [] } "PAY-20260114-002" 200 true
    (Or.inl rfl) (by norm_num [exPo])

/-! ### C4 -/

/-- C4: on an APPROVED / PARTIALLY_PAID / OVERDUE purchase order whose
stored fields are consistent cent amounts, a payment of `0 < amt ≤
outstanding` succeeds and sets `paidAmount += amt`,
`outstanding = max 0 (total - paidAmount)`, and status PAID when the new
outstanding is ≤ 0, else PARTIALLY_PAID. -/
theorem C4_record_payment_success (po : PurchaseOrder) (ref : String) (amt : ℚ)
    (hs : po.status = .approved ∨ po.status = .partiallyPaid ∨ po.status = .overdue)
    (hpos : 0 < amt) (hle : amt ≤ po.outstandingAmount)
    (hout : po.outstandingAmount = po.totalAmount - po.paidAmount)
    (hpaid0 : 0 ≤ po.paidAmount)
    (hcp : IsCents po.paidAmount) (hct : IsCents po.totalAmount) (hca : IsCents amt) :
    PaymentsService.create po ref amt =
      .ok ({ paymentReference := ref, amountPaid := amt, status := .completed,
             voidReason := none },
           { po with
             paidAmount := po.paidAmount + amt,
             outstandingAmount := max 0 (po.totalAmount - (po.paidAmount + amt)),
             status := if po.totalAmount - (po.paidAmount + amt) ≤ 0
               then .paid else .partiallyPaid }) := by
  have h1 : ¬ po.status = .cancelled := by rcases hs with h | h | h <;> simp [h]
  have h2 : ¬ po.status = .paid := by rcases hs with h | h | h <;> simp [h]
  have h3 : ¬ po.status = .pending := by rcases hs with h | h | h <;> simp [h]
  have hr1 : round2 (po.paidAmount + amt) = po.paidAmount + amt :=
    round2_of_isCents (isCents_add hcp hca)
  have hr2 : round2 (po.totalAmount - (po.paidAmount + amt)) =
      po.totalAmount - (po.paidAmount + amt) :=
    round2_of_isCents (isCents_sub hct (isCents_add hcp hca))
  have hnover : ¬ amt > po.outstandingAmount := not_lt.mpr hle
  have hguard : ¬ po.paidAmount + amt > po.totalAmount := by
    rw [hout] at hle
    exact not_lt.mpr (by linarith)
  simp only [PaymentsService.create, PurchaseOrdersService.updatePaymentAmounts,
    if_neg h1, if_neg h2, if_neg h3, if_neg hnover, hr1, hr2, if_neg hguard]
  by_cases hz : po.totalAmount - (po.paidAmount + amt) ≤ 0
  · simp only [if_pos hz]
  · simp only [if_neg hz,
      if_pos (show po.paidAmount + amt > 0 by linarith)]

theorem C4_record_payment_success_witness :
    PaymentsService.create exPo "PAY-20260114-003" 50 =
      .ok ({ paymentReference := "PAY-20260114-003", amountPaid := 50,
             status := .completed, voidReason := none },
           { exPo with
             paidAmount := exPo.paidAmount + 50,
             outstandingAmount := max 0 (exPo.totalAmount - (exPo.paidAmount + 50)),
             status := if exPo.totalAmount - (exPo.paidAmount + 50) ≤ 0
               then .paid else .partiallyPaid }) :=
  C4_record_payment_success exPo "PAY-20260114-003" 50 (Or.inl rfl)
    (by norm_num) (by norm_num [exPo]) (by norm_num [exPo]) (by norm_num [exPo])
    ⟨0, by norm_num [exPo]⟩ ⟨11800, by norm_num [exPo]⟩ ⟨5000, by norm_num⟩

/-! ### C5 -/

theorem PaymentsService.void_eq_of_completed {pay : Payment} {po : PurchaseOrder}
    {reason : String} {now : ℤ}
    (hc : pay.status = .completed) (hle : pay.amountPaid ≤ po.paidAmount)
    (hcA : IsCents pay.amountPaid) (hcp : IsCents po.paidAmount)
    (hct : IsCents po.totalAmount) :
    PaymentsService.void pay po reason now =
      .ok ({ pay with status := .voided, voidReason := some reason },
           { po with
             paidAmount := po.paidAmount - pay.amountPaid,
             outstandingAmount := po.totalAmount - (po.paidAmount - pay.amountPaid),
             status := if po.paidAmount - pay.amountPaid ≤ 0
               then (if po.dueDate < now then PoStatus.overdue else PoStatus.approved)
               else PoStatus.partiallyPaid }) := by
  have hnv : ¬ pay.status = .voided := by rw [hc]; simp
  have hr1 : round2 (po.paidAmount - pay.amountPaid) =
      po.paidAmount - pay.amountPaid :=
    round2_of_isCents (isCents_sub hcp hcA)
  have hr2 : round2 (po.totalAmount - (po.paidAmount - pay.amountPaid)) =
      po.totalAmount - (po.paidAmount - pay.amountPaid) :=
    round2_of_isCents (isCents_sub hct (isCents_sub hcp hcA))
  simp only [PaymentsService.void, if_neg hnv,
    PurchaseOrdersService.reversePaymentAmount, hr1, hr2]
  rw [max_eq_right (by linarith : (0 : ℚ) ≤ po.paidAmount - pay.amountPaid)]

/-- C5: voiding is one-way and balance-reversing.  (1) Voiding an
already-VOIDED payment fails.  (2) Voiding a COMPLETED payment of amount A
marks it VOIDED and updates the owning PO with `paidAmount -= A`,
`outstanding = total - paidAmount`, status APPROVED / OVERDUE by due date
when `paidAmount ≤ 0` and PARTIALLY_PAID otherwise.  (3) Recording a
payment and then voiding it restores the outstanding amount within 0.01,
and the voided payment's status is VOIDED. -/
theorem C5_void_payment :
    (∀ (pay : Payment) (po : PurchaseOrder) (reason : String) (now : ℤ),
        pay.status = .voided →
        PaymentsService.void pay po reason now = .error .alreadyVoided) ∧
    (∀ (pay : Payment) (po : PurchaseOrder) (reason : String) (now : ℤ),
        pay.status = .completed → pay.amountPaid ≤ po.paidAmount →
        IsCents pay.amountPaid → IsCents po.paidAmount → IsCents po.totalAmount →
        PaymentsService.void pay po reason now =
          .ok ({ pay with status := .voided, voidReason := some reason },
               { po with
                 paidAmount := po.paidAmount - pay.amountPaid,
                 outstandingAmount :=
                   po.totalAmount - (po.paidAmount - pay.amountPaid),
                 status := if po.paidAmount - pay.amountPaid ≤ 0
                   then (if po.dueDate < now then PoStatus.overdue else PoStatus.approved)
                   else PoStatus.partiallyPaid })) ∧
    (∀ (po : PurchaseOrder) (ref reason : String) (amt : ℚ) (now : ℤ)
        (pay : Payment) (po1 : PurchaseOrder) (pay2 : Payment) (po2 : PurchaseOrder),
        po.outstandingAmount = po.totalAmount - po.paidAmount →
        IsCents amt → IsCents po.paidAmount → IsCents po.totalAmount →
        PaymentsService.create po ref amt = .ok (pay, po1) →
        PaymentsService.void pay po1 reason now = .ok (pay2, po2) →
        pay2.status = .voided ∧
        |po2.outstandingAmount - po.outstandingAmount| ≤ 1 / 100) := by
  refine ⟨?_, ?_, ?_⟩
  · intro pay po reason now hv
    simp [PaymentsService.void, hv]
  · intro pay po reason now hc hle hcA hcp hct
    exact PaymentsService.void_eq_of_completed hc hle hcA hcp hct
  · intro po ref reason amt now pay po1 pay2 po2 hout hca hcp hct hrec hvoid
    obtain ⟨hpay, hupd⟩ := PaymentsService.create_ok_elim hrec
    obtain ⟨hle1, hp1, ho1, ht1, hd1⟩ :=
      PurchaseOrdersService.updatePaymentAmounts_ok_elim hupd
    obtain ⟨hnv, hpay2, hpo2⟩ := PaymentsService.void_ok_elim hvoid
    constructor
    · rw [hpay2]
    · subst hpo2
      have hamt : pay.amountPaid = amt := by rw [hpay]
      have hro : (PurchaseOrdersService.reversePaymentAmount po1 pay.amountPaid
          now).outstandingAmount
          = round2 (po1.totalAmount - round2 (po1.paidAmount - pay.amountPaid)) := rfl
      have hr0 : round2 (po.paidAmount + amt) = po.paidAmount + amt :=
        round2_of_isCents (isCents_add hcp hca)
      rw [hro, hamt, hp1, ht1, hr0]
      have h5 : po.paidAmount + amt - amt = po.paidAmount := by ring
      rw [h5, round2_of_isCents hcp, round2_of_isCents (isCents_sub hct hcp), hout]
      simp

/-- C5 witness: voiding the concrete 50-unit payment on the half-paid PO. -/
theorem C5_void_payment_witness :
    PaymentsService.void exPay50 exPoPaid50 "entered twice" 10 =
      .ok ({ exPay50 with status := .voided, voidReason := some "entered twice" },
           { exPoPaid50 with
             paidAmount := exPoPaid50.paidAmount - exPay50.amountPaid,
             outstandingAmount :=
               exPoPaid50.totalAmount - (exPoPaid50.paidAmount - exPay50.amountPaid),
             status := if exPoPaid50.paidAmount - exPay50.amountPaid ≤ 0
               then (if exPoPaid50.dueDate < 10 then PoStatus.overdue else PoStatus.approved)
               else PoStatus.partiallyPaid }) :=
  C5_void_payment.2.1 exPay50 exPoPaid50 "entered twice" 10 rfl
    (by norm_num [exPay50, exPoPaid50, exPo])
    ⟨5000, by norm_num [exPay50]⟩
    ⟨5000, by norm_num [exPoPaid50, exPo]⟩
    ⟨11800, by norm_num [exPoPaid50, exPo]⟩

/-! ### C6 -/

theorem PurchaseOrdersService.addItem_ok_elim {po : PurchaseOrder}
    {dto : CreateItemDto} {po2 : PurchaseOrder}
    (h : PurchaseOrdersService.addItem po dto = .ok po2) :
    po2 = PurchaseOrdersService.recalculateTotals
      { po with items := po.items ++ [PurchaseOrdersService.mkItem dto] } := by
  simp only [PurchaseOrdersService.addItem] at h
  split at h
  · exact absurd h (by simp)
  · simp only [Except.ok.injEq] at h
    exact h.symm

theorem PurchaseOrdersService.updateItem_ok_elim {po : PurchaseOrder} {idx : ℕ}
    {dto : UpdateItemDto} {po2 : PurchaseOrder}
    (h : PurchaseOrdersService.updateItem po idx dto = .ok po2) :
    ∃ hlt : idx < po.items.length,
      po2 = PurchaseOrdersService.recalculateTotals
        { po with items := po.items.set idx (PurchaseOrdersService.mergeItem (po.items.get ⟨idx, hlt⟩) dto) } := by
  simp only [PurchaseOrdersService.updateItem] at h
  split at h
  · exact absurd h (by simp)
  · split at h
    · rename_i hlt
      simp only [Except.ok.injEq] at h
      exact ⟨hlt, h.symm⟩
    · exact absurd h (by simp)

theorem PurchaseOrdersService.removeItem_ok_elim {po : PurchaseOrder} {idx : ℕ}
    {po2 : PurchaseOrder}
    (h : PurchaseOrdersService.removeItem po idx = .ok po2) :
    po2 = PurchaseOrdersService.recalculateTotals
      { po with items := po.items.eraseIdx idx } := by
  simp only [PurchaseOrdersService.removeItem] at h
  split at h
  · exact absurd h (by simp)
  · split at h
    · exact absurd h (by simp)
    · split at h
      · simp only [Except.ok.injEq] at h
        exact h.symm
      · exact absurd h (by simp)

theorem PurchaseOrdersService.recalculateTotals_fields (po : PurchaseOrder) :
    (PurchaseOrdersService.recalculateTotals po).taxAmount =
      round2 ((po.items.map PurchaseOrdersService.itemTax).sum) ∧
    (PurchaseOrdersService.recalculateTotals po).discountAmount =
      round2 ((po.items.map PurchaseOrdersService.itemDiscount).sum) ∧
    (PurchaseOrdersService.recalculateTotals po).items = po.items ∧
    (PurchaseOrdersService.recalculateTotals po).paidAmount = po.paidAmount ∧
    (PurchaseOrdersService.recalculateTotals po).outstandingAmount =
      round2 ((po.items.map PurchaseOrdersService.itemSubtotal).sum
        - (po.items.map PurchaseOrdersService.itemDiscount).sum
        + (po.items.map PurchaseOrdersService.itemTax).sum - po.paidAmount) :=
  ⟨rfl, rfl, rfl, rfl, rfl⟩

def exItem70 : Item :=
  { quantity := 1, unitPrice := 70, taxRate := 0, discountPercent := 0,
    totalPrice := 70 }

def exItem30 : Item :=
  { quantity := 1, unitPrice := 30, taxRate := 0, discountPercent := 0,
    totalPrice := 30 }

/-- An approved PO paid 100 in full, still holding two items (70 + 30). -/
def exPoOverpaid : PurchaseOrder :=
  { subtotal := 100, taxAmount := 0, discountAmount := 0, totalAmount := 100,
    paidAmount := 100, outstandingAmount := 0, status := .approved,
    poDate := 0, dueDate := 30, items := [exItem70, exItem30] }

/-- C6 counterexample: removing the 30-unit item from the fully-paid PO
drops the total to 70 below the 100 already paid; the claim requires the
mutation to fail, but the source has no such check — the mutation succeeds
and persists `outstandingAmount = -30`. -/
theorem C6_counterexample :
    PurchaseOrdersService.removeItem exPoOverpaid 1 =
      .ok { subtotal := 70, taxAmount := 0, discountAmount := 0, totalAmount := 70,
            paidAmount := 100, outstandingAmount := -30, status := .approved,
            poDate := 0, dueDate := 30, items := [exItem70] } ∧
    (-30 : ℚ) < 0 := by
  constructor
  · norm_num [PurchaseOrdersService.removeItem, PurchaseOrdersService.recalculateTotals,
      exPoOverpaid, exItem70, exItem30, PurchaseOrdersService.itemSubtotal,
      PurchaseOrdersService.itemDiscount, PurchaseOrdersService.itemTax, round2,
      round_eq]
  · norm_num

/-- C6 (amended): every item mutation recomputes subtotal / tax /
discount / total and `outstanding = total - paidAmount`, but performs no
negativity check: whenever the status and bounds guards pass, the
mutation succeeds, even when prior payments exceed the new lower total
(in which case the recomputed negative outstanding is persisted). -/
theorem C6_recalculation_unchecked :
    (∀ (po : PurchaseOrder) (dto : CreateItemDto),
        (po.status = .pending ∨ po.status = .approved) →
        PurchaseOrdersService.addItem po dto =
          .ok (PurchaseOrdersService.recalculateTotals
            { po with items := po.items ++ [PurchaseOrdersService.mkItem dto] })) ∧
    (∀ (po : PurchaseOrder) (idx : ℕ) (dto : UpdateItemDto)
        (hlt : idx < po.items.length),
        (po.status = .pending ∨ po.status = .approved) →
        PurchaseOrdersService.updateItem po idx dto =
          .ok (PurchaseOrdersService.recalculateTotals
            { po with items := po.items.set idx (PurchaseOrdersService.mergeItem (po.items.get ⟨idx, hlt⟩) dto) })) ∧
    (∀ (po : PurchaseOrder) (idx : ℕ),
        (po.status = .pending ∨ po.status = .approved) →
        1 < po.items.length → idx < po.items.length →
        PurchaseOrdersService.removeItem po idx =
          .ok (PurchaseOrdersService.recalculateTotals
            { po with items := po.items.eraseIdx idx })) ∧
    (∀ po : PurchaseOrder,
        (PurchaseOrdersService.recalculateTotals po).outstandingAmount =
          round2 ((po.items.map PurchaseOrdersService.itemSubtotal).sum
            - (po.items.map PurchaseOrdersService.itemDiscount).sum
            + (po.items.map PurchaseOrdersService.itemTax).sum - po.paidAmount) ∧
        (PurchaseOrdersService.recalculateTotals po).paidAmount = po.paidAmount) := by
  refine ⟨?_, ?_, ?_, fun po => ⟨rfl, rfl⟩⟩
  · intro po dto hst
    rcases hst with h | h <;> simp [PurchaseOrdersService.addItem, h]
  · intro po idx dto hlt hst
    rcases hst with h | h <;> simp [PurchaseOrdersService.updateItem, h, hlt]
  · intro po idx hst hlen hidx
    have h1 : ¬ po.items.length ≤ 1 := not_le.mpr hlen
    rcases hst with h | h <;> simp [PurchaseOrdersService.removeItem, h, h1, hidx]

/-- C6 witness: the removal on the overpaid PO goes through the
recalculation path. -/
theorem C6_recalculation_unchecked_witness :
    PurchaseOrdersService.removeItem exPoOverpaid 1 =
      .ok (PurchaseOrdersService.recalculateTotals
        { exPoOverpaid with items := exPoOverpaid.items.eraseIdx 1 }) :=
  C6_recalculation_unchecked.2.2.1 exPoOverpaid 1 (Or.inr rfl)
    (by norm_num [exPoOverpaid]) (by norm_num [exPoOverpaid])

/-! ### C7 -/

/-- C7 counterexample: with the day's latest reference at sequence 999,
the 1000th request does not fail: both generators return a plain
reference whose numeric component has four digits, outside the documented
3-digit format — no `SequenceExhausted` error exists in the source. -/
theorem C7_counterexample :
    PurchaseOrdersService.generatePoNumber "20260114" (some "PO-20260114-999")
      = "PO-20260114-1000" ∧
    ((splitOnDash "PO-20260114-1000").getD 2 "").length ≠ 3 := by
  decide

/-- C7 (amended): the reference allocator has no exhaustion check.  With
the day's latest reference at sequence 999 it silently returns
`PREFIX-YYYYMMDD-1000` (a 4-digit suffix, out of format), for both the PO
and the payment generator.  Worse, `-1000` sorts lexicographically below
`-999`, so the string-maximum query keeps returning the `-999` row and
the generator keeps re-issuing the duplicate `-1000`. -/
theorem C7_sequence_overflow_silent :
    PurchaseOrdersService.generatePoNumber "20260114" (some "PO-20260114-999")
      = "PO-20260114-1000" ∧
    PaymentsService.generatePaymentReference "20260114" (some "PAY-20260114-999")
      = "PAY-20260114-1000" ∧
    ((splitOnDash "PO-20260114-1000").getD 2 "").length = 4 ∧
    charListLt "PO-20260114-1000".data "PO-20260114-999".data = true := by
  decide

/-! ### C8 -/

/-- C8: for an existing ACTIVE vendor, `create` persists a PENDING PO with
`paidAmount = 0`, `outstanding = totalAmount`,
`dueDate = poDate + paymentTermsDays` (negative terms put the due date
before the PO date), and `totalAmount = round2 (subtotal - discountAmount
+ taxAmount)` where the stored tax / discount are the caller overrides
when supplied and the rounded per-item sums otherwise. -/
theorem C8_create_purchase_order (v : Vendor) (dto : CreatePoDto)
    (hv : v.status = .active) (_hitems : dto.items ≠ []) :
    ∃ po, PurchaseOrdersService.create (some v) dto = .ok po ∧
      po.status = .pending ∧
      po.paidAmount = 0 ∧
      po.outstandingAmount = po.totalAmount ∧
      po.dueDate = dto.poDate + PurchaseOrdersService.daysMap v.paymentTerms ∧
      (PurchaseOrdersService.daysMap v.paymentTerms < 0 → po.dueDate < dto.poDate) ∧
      po.taxAmount = dto.taxAmount.getD
        (round2 (dto.items.map PurchaseOrdersService.dtoTax).sum) ∧
      po.discountAmount = dto.discountAmount.getD
        (round2 (dto.items.map PurchaseOrdersService.dtoDiscount).sum) ∧
      po.totalAmount = round2 ((dto.items.map PurchaseOrdersService.dtoSubtotal).sum
        - po.discountAmount + po.taxAmount) := by
  have hva : ¬ v.status ≠ VendorStatus.active := by rw [hv]; simp
  have hcreate : PurchaseOrdersService.create (some v) dto = .ok
      { subtotal := round2 (dto.items.map PurchaseOrdersService.dtoSubtotal).sum
        taxAmount := dto.taxAmount.getD
          (round2 (dto.items.map PurchaseOrdersService.dtoTax).sum)
        discountAmount := dto.discountAmount.getD
          (round2 (dto.items.map PurchaseOrdersService.dtoDiscount).sum)
        totalAmount := round2 ((dto.items.map PurchaseOrdersService.dtoSubtotal).sum
          - dto.discountAmount.getD
            (round2 (dto.items.map PurchaseOrdersService.dtoDiscount).sum)
          + dto.taxAmount.getD
            (round2 (dto.items.map PurchaseOrdersService.dtoTax).sum))
        paidAmount := 0
        outstandingAmount := round2 ((dto.items.map PurchaseOrdersService.dtoSubtotal).sum
          - dto.discountAmount.getD
            (round2 (dto.items.map PurchaseOrdersService.dtoDiscount).sum)
          + dto.taxAmount.getD
            (round2 (dto.items.map PurchaseOrdersService.dtoTax).sum))
        status := .pending
        poDate := dto.poDate
        dueDate := PurchaseOrdersService.calculateDueDate dto.poDate v.paymentTerms
        items := dto.items.map PurchaseOrdersService.mkItem } := by
    simp only [PurchaseOrdersService.create, if_neg hva]
  refine ⟨_, hcreate, rfl, rfl, rfl, rfl, ?_, rfl, rfl, rfl⟩
  intro hneg
  show PurchaseOrdersService.calculateDueDate dto.poDate v.paymentTerms < dto.poDate
  unfold PurchaseOrdersService.calculateDueDate
  omega

def exVendor : Vendor := { status := .active, paymentTerms := .net30 }

def exCreateDto : CreatePoDto :=
  { poDate := 0,
    items := [{ quantity := 1, unitPrice := 10000, taxRate := some 18,
                discountPercent := none }],
    taxAmount := none, discountAmount := none }

theorem C8_create_purchase_order_witness :
    ∃ po, PurchaseOrdersService.create (some exVendor) exCreateDto = .ok po ∧
      po.status = .pending ∧
      po.paidAmount = 0 ∧
      po.outstandingAmount = po.totalAmount ∧
      po.dueDate = exCreateDto.poDate
        + PurchaseOrdersService.daysMap exVendor.paymentTerms ∧
      (PurchaseOrdersService.daysMap exVendor.paymentTerms < 0 →
        po.dueDate < exCreateDto.poDate) ∧
      po.taxAmount = exCreateDto.taxAmount.getD
        (round2 (exCreateDto.items.map PurchaseOrdersService.dtoTax).sum) ∧
      po.discountAmount = exCreateDto.discountAmount.getD
        (round2 (exCreateDto.items.map PurchaseOrdersService.dtoDiscount).sum) ∧
      po.totalAmount = round2
        ((exCreateDto.items.map PurchaseOrdersService.dtoSubtotal).sum
          - po.discountAmount + po.taxAmount) :=
  C8_create_purchase_order exVendor exCreateDto rfl (by simp [exCreateDto])

/-! ### C9 -/

theorem PurchaseOrdersService.overdueEligible_iff (today : ℤ) (po : PurchaseOrder) :
    PurchaseOrdersService.overdueEligible today po = true ↔
      (po.dueDate < today ∧
        (po.status = .pending ∨ po.status = .approved ∨ po.status = .partiallyPaid) ∧
        0 < po.outstandingAmount) := by
  simp only [PurchaseOrdersService.overdueEligible, Bool.and_eq_true,
    Bool.or_eq_true, decide_eq_true_eq, beq_iff_eq]
  tauto

theorem PurchaseOrdersService.overdueEligible_eq_decide (today : ℤ)
    (po : PurchaseOrder) :
    PurchaseOrdersService.overdueEligible today po =
      decide (po.dueDate < today ∧
        (po.status = .pending ∨ po.status = .approved ∨ po.status = .partiallyPaid) ∧
        0 < po.outstandingAmount) := by
  cases h : PurchaseOrdersService.overdueEligible today po
  · symm
    apply decide_eq_false
    intro hp
    rw [(PurchaseOrdersService.overdueEligible_iff today po).mpr hp] at h
    simp at h
  · symm
    apply decide_eq_true
    exact (PurchaseOrdersService.overdueEligible_iff today po).mp h

theorem PurchaseOrdersService.overdueEligible_after_step (today : ℤ)
    (po : PurchaseOrder) :
    PurchaseOrdersService.overdueEligible today
      (if PurchaseOrdersService.overdueEligible today po
        then { po with status := .overdue } else po) = false := by
  cases h : PurchaseOrdersService.overdueEligible today po
  · simp [h]
  · simp only [h, if_true]
    simp [PurchaseOrdersService.overdueEligible]

/-- C9: the overdue sweep (1) transitions exactly the POs with
`dueDate < today`, status PENDING / APPROVED / PARTIALLY_PAID, and
positive outstanding to OVERDUE, leaving all others untouched; (2)
returns the number of affected rows; (3) is idempotent — a second sweep
with the same `today` changes nothing and reports 0. -/
theorem C9_sweep_overdue :
    (∀ (today : ℤ) (pos : List PurchaseOrder) (i : ℕ) (po : PurchaseOrder),
        pos.get? i = some po →
        (PurchaseOrdersService.markOverduePurchaseOrders today pos).1.get? i =
          some (if po.dueDate < today ∧
              (po.status = .pending ∨ po.status = .approved ∨
                po.status = .partiallyPaid) ∧
              0 < po.outstandingAmount
            then { po with status := .overdue } else po)) ∧
    (∀ (today : ℤ) (pos : List PurchaseOrder),
        (PurchaseOrdersService.markOverduePurchaseOrders today pos).2 =
          (pos.filter fun po => decide (po.dueDate < today ∧
            (po.status = .pending ∨ po.status = .approved ∨
              po.status = .partiallyPaid) ∧
            0 < po.outstandingAmount)).length) ∧
    (∀ (today : ℤ) (pos : List PurchaseOrder),
        PurchaseOrdersService.markOverduePurchaseOrders today
            (PurchaseOrdersService.markOverduePurchaseOrders today pos).1 =
          ((PurchaseOrdersService.markOverduePurchaseOrders today pos).1, 0)) := by
  refine ⟨?_, ?_, ?_⟩
  · intro today pos i po hpo
    simp only [PurchaseOrdersService.markOverduePurchaseOrders, List.get?_map, hpo,
      Option.map_some']
    congr 1
    by_cases hb : po.dueDate < today ∧
        (po.status = .pending ∨ po.status = .approved ∨ po.status = .partiallyPaid) ∧
        0 < po.outstandingAmount
    · rw [if_pos hb,
        if_pos ((PurchaseOrdersService.overdueEligible_iff today po).mpr hb)]
    · rw [if_neg hb,
        if_neg (fun hc => hb ((PurchaseOrdersService.overdueEligible_iff today po).mp hc))]
  · intro today pos
    simp only [PurchaseOrdersService.markOverduePurchaseOrders]
    have hfun : (PurchaseOrdersService.overdueEligible today) =
        fun po => decide (po.dueDate < today ∧
          (po.status = .pending ∨ po.status = .approved ∨
            po.status = .partiallyPaid) ∧
          0 < po.outstandingAmount) :=
      funext fun po => PurchaseOrdersService.overdueEligible_eq_decide today po
    rw [hfun]
  · intro today pos
    simp only [PurchaseOrdersService.markOverduePurchaseOrders, Prod.mk.injEq]
    constructor
    · rw [List.map_map]
      apply List.map_congr_left
      intro po _
      simp only [Function.comp_apply]
      rw [if_neg (by
        rw [PurchaseOrdersService.overdueEligible_after_step today po]
        simp)]
    · rw [List.length_eq_zero]
      rw [List.filter_eq_nil]
      intro q hq
      simp only [List.mem_map] at hq
      obtain ⟨po, _, rfl⟩ := hq
      rw [PurchaseOrdersService.overdueEligible_after_step today po]
      simp

def exPoDue : PurchaseOrder :=
  { subtotal := 100, taxAmount := 0, discountAmount := 0, totalAmount := 100,
    paidAmount := 0, outstandingAmount := 100, status := .pending,
    poDate := 0, dueDate := 5, items := [exItem70, exItem30] }

theorem C9_sweep_overdue_witness :
    (PurchaseOrdersService.markOverduePurchaseOrders 10 [exPoDue]).1.get? 0 =
      some (if exPoDue.dueDate < 10 ∧
          (exPoDue.status = .pending ∨ exPoDue.status = .approved ∨
            exPoDue.status = .partiallyPaid) ∧
          0 < exPoDue.outstandingAmount
        then { exPoDue with status := .overdue } else exPoDue) :=
  C9_sweep_overdue.1 10 [exPoDue] 0 exPoDue rfl

/-! ### C10 -/

/-- C10: after every successful item mutation the stored `taxAmount` and
`discountAmount` equal the rounded per-item sums recomputed from the
current items, and the result does not depend on the PO's previous
(possibly creation-time overridden) `taxAmount` / `discountAmount`. -/
theorem C10_item_mutations_reset_overrides :
    (∀ (po : PurchaseOrder) (dto : CreateItemDto) (po2 : PurchaseOrder),
        PurchaseOrdersService.addItem po dto = .ok po2 →
        po2.taxAmount = round2 (po2.items.map PurchaseOrdersService.itemTax).sum ∧
        po2.discountAmount =
          round2 (po2.items.map PurchaseOrdersService.itemDiscount).sum) ∧
    (∀ (po : PurchaseOrder) (idx : ℕ) (dto : UpdateItemDto) (po2 : PurchaseOrder),
        PurchaseOrdersService.updateItem po idx dto = .ok po2 →
        po2.taxAmount = round2 (po2.items.map PurchaseOrdersService.itemTax).sum ∧
        po2.discountAmount =
          round2 (po2.items.map PurchaseOrdersService.itemDiscount).sum) ∧
    (∀ (po : PurchaseOrder) (idx : ℕ) (po2 : PurchaseOrder),
        PurchaseOrdersService.removeItem po idx = .ok po2 →
        po2.taxAmount = round2 (po2.items.map PurchaseOrdersService.itemTax).sum ∧
        po2.discountAmount =
          round2 (po2.items.map PurchaseOrdersService.itemDiscount).sum) ∧
    (∀ (po : PurchaseOrder) (dto : CreateItemDto) (t d : ℚ),
        (PurchaseOrdersService.addItem
            { po with taxAmount := t, discountAmount := d } dto).map
            (fun q => (q.taxAmount, q.discountAmount)) =
          (PurchaseOrdersService.addItem po dto).map
            (fun q => (q.taxAmount, q.discountAmount))) := by
  refine ⟨?_, ?_, ?_, ?_⟩
  · intro po dto po2 h
    rw [PurchaseOrdersService.addItem_ok_elim h]
    exact ⟨rfl, rfl⟩
  · intro po idx dto po2 h
    obtain ⟨hlt, h2⟩ := PurchaseOrdersService.updateItem_ok_elim h
    rw [h2]
    exact ⟨rfl, rfl⟩
  · intro po idx po2 h
    rw [PurchaseOrdersService.removeItem_ok_elim h]
    exact ⟨rfl, rfl⟩
  · intro po dto t d
    by_cases hst : po.status ≠ .pending ∧ po.status ≠ .approved
    · simp [PurchaseOrdersService.addItem, hst]
    · simp only [PurchaseOrdersService.addItem, hst, if_false, Except.map]
      rfl

def exItemAdded : Item :=
  { quantity := 1, unitPrice := 50, taxRate := 18, discountPercent := 0,
    totalPrice := 59 }

/-- `exPo` after adding a 50-unit item at 18% tax: item sums are
recomputed, overriding nothing. -/
def exPoAdded : PurchaseOrder :=
  { subtotal := 150, taxAmount := 27, discountAmount := 0, totalAmount := 177,
    paidAmount := 0, outstandingAmount := 177, status := .approved,
    poDate := 0, dueDate := 30, items := [exItem, exItemAdded] }

theorem C10_item_mutations_reset_overrides_witness :
    exPoAdded.taxAmount =
      round2 (exPoAdded.items.map PurchaseOrdersService.itemTax).sum ∧
    exPoAdded.discountAmount =
      round2 (exPoAdded.items.map PurchaseOrdersService.itemDiscount).sum :=
  C10_item_mutations_reset_overrides.1 exPo
    { quantity := 1, unitPrice := 50, taxRate := some 18, discountPercent := none }
    exPoAdded
    (by
      norm_num [PurchaseOrdersService.addItem, PurchaseOrdersService.recalculateTotals,
        PurchaseOrdersService.mkItem, PurchaseOrdersService.calculateItemTotal,
        PurchaseOrdersService.itemSubtotal, PurchaseOrdersService.itemDiscount,
        PurchaseOrdersService.itemTax, exPo, exItem, exItemAdded, exPoAdded,
        round2, round_eq])

end Ledger
